import Mathlib

/-!
Verification development for the AetherStream internet-radio firmware
(`esp32-stream-system.cpp`).  The definitions below are a shallow
embedding of the firmware state and of the main-loop tick; theorems at
the end settle the specification claims against this embedding.

Modelling conventions:
* machine integers are `Int` (C `int`, `long`) or `Nat` (C `unsigned long`);
* the flat `streamsX` byte array is a function from byte address to byte
  value (`Buf`); C strings are lists of bytes, read up to the first NUL;
* the persistent Preferences database is a record of the integer keys the
  program uses plus the per-slot stream strings;
* hardware and library side effects (display writes, audio calls, sleep,
  restart) are collected in an explicit effect trace.
-/

/-- Bytes of the `streamsX` array: address (C pointer offset) to byte value. -/
def Buf : Type := Int → Nat

/-- STREAM_ELEMENT_SIZE : max length of a name or url (49 chars + NUL). -/
def STREAM_ELEMENT_SIZE : Nat := 50

/-- STREAM_ITEM_SIZE : line item width (tag element plus url element). -/
def STREAM_ITEM_SIZE : Nat := 100

/-- TOTAL_ITEMS : number of stream slots. -/
def TOTAL_ITEMS : Nat := 36

/-- Size in bytes of `streamsX` (`TOTAL_ITEMS * STREAM_ITEM_SIZE`). -/
def STREAMSX_SIZE : Nat := 3600

/-- The byte content that `strncpy(dst, src, 50)` stores into a 50-byte
element: the first 50 bytes of the source, NUL-padded up to 50 when the
source is shorter.  (When the source has 50 or more bytes, no NUL
terminator is written.) -/
def elemBytes (s : List Nat) : List Nat :=
  s.take STREAM_ELEMENT_SIZE ++ List.replicate (STREAM_ELEMENT_SIZE - s.length) 0

/-- Overwrite `bs.length` bytes of the buffer starting at `off`. -/
def writeBytes (f : Buf) (off : Int) (bs : List Nat) : Buf :=
  fun a => if off ≤ a ∧ a < off + bs.length then bs.getD (a - off).toNat 0 else f a

/-- `putStreams(index, tag, url)`: two `strncpy` calls into `streamsX`,
tag at `index*STREAM_ITEM_SIZE`, url `STREAM_ELEMENT_SIZE` further. -/
def putStreams (f : Buf) (index : Nat) (tag url : List Nat) : Buf :=
  writeBytes
    (writeBytes f ((index * STREAM_ITEM_SIZE : Nat) : Int) (elemBytes tag))
    ((index * STREAM_ITEM_SIZE + STREAM_ELEMENT_SIZE : Nat) : Int)
    (elemBytes url)

/-- Value of the C string stored at offset `off`: bytes up to the first
NUL.  The scan is bounded by the array size, which matches C whenever the
data is NUL-terminated inside the array. -/
def readC (f : Buf) (off : Int) : List Nat :=
  ((List.range STREAMSX_SIZE).map (fun (k : Nat) => f (off + (k : Int)))).takeWhile
    (fun b => b ≠ 0)

/-- `getStreamsTag(index)`: the C string at `streamsX + index*100`. -/
def getStreamsTag (f : Buf) (index : Int) : List Nat :=
  readC f (index * (STREAM_ITEM_SIZE : Int))

/-- `getStreamsUrl(index)`: the C string at `streamsX + index*100 + 50`. -/
def getStreamsUrl (f : Buf) (index : Int) : List Nat :=
  readC f (index * (STREAM_ITEM_SIZE : Int) + (STREAM_ELEMENT_SIZE : Int))

/-- Byte values of the literal "http://". -/
def httpBytes : List Nat := [104, 116, 116, 112, 58, 47, 47]

/-- `checkProtocol(menuIndex)`: `strncmp(getStreamsUrl(menuIndex), "http://", 7) == 0`,
i.e. the first seven bytes of the url element equal `http://`. -/
def checkProtocol (f : Buf) (menuIndex : Int) : Bool :=
  decide (((List.range 7).map
    (fun (k : Nat) =>
      f (menuIndex * (STREAM_ITEM_SIZE : Int) + (STREAM_ELEMENT_SIZE : Int) + (k : Int))))
    = httpBytes)

/-- The portal-save loop body at lines 720-722: `putStreams(i, tag_i, url_i)`
for every `i` in `[0, TOTAL_ITEMS)`, fields taken from the edited portal
parameters. -/
def setAllStreams (f : Buf) (entries : List (List Nat × List Nat)) : Buf :=
  (List.range TOTAL_ITEMS).foldl
    (fun b i => putStreams b i (entries.getD i ([], [])).1 (entries.getD i ([], [])).2)
    f

/-- `populatePrefs()`: store every slot of `streamsX` back into the
per-slot preference records (tag and url read back from the array). -/
def populatePrefs (f : Buf) : List (List Nat × List Nat) :=
  (List.range TOTAL_ITEMS).map (fun i => (getStreamsTag f i, getStreamsUrl f i))

/-! ## Timer conversion and cycling functions -/

/-- MS1HOUR, one hour in milliseconds. -/
def MS1HOUR : Nat := 3600000

/-- MS2HOUR. -/
def MS2HOUR : Nat := 3600000 * 2

/-- MS4HOUR. -/
def MS4HOUR : Nat := 3600000 * 4

/-- MS6HOUR. -/
def MS6HOUR : Nat := 3600000 * 6

/-- MS8HOUR. -/
def MS8HOUR : Nat := 3600000 * 8

/-- MS12HOUR. -/
def MS12HOUR : Nat := 3600000 * 12

/-- `timerValueToDuration(settingVal)`: preference value to duration. -/
def timerValueToDuration (settingVal : Int) : Nat :=
  if settingVal = 1 then MS2HOUR
  else if settingVal = 2 then MS4HOUR
  else if settingVal = 3 then MS6HOUR
  else if settingVal = 4 then MS8HOUR
  else if settingVal = 5 then MS12HOUR
  else MS1HOUR

/-- `timerDurationToValue(duration)`: duration to preference value. -/
def timerDurationToValue (duration : Nat) : Int :=
  if duration = MS2HOUR then 1
  else if duration = MS4HOUR then 2
  else if duration = MS6HOUR then 3
  else if duration = MS8HOUR then 4
  else if duration = MS12HOUR then 5
  else 0

/-- `changeTimerDuration()`: rotate `(timerIsRunning, sleepTimerDuration)`
to the next timer value: a disabled timer becomes the 1-hour enabled
setting; an enabled one steps 1h, 2h, 4h, 6h, 8h, 12h, then disabled at
1h; a duration outside the list is left unchanged. -/
def changeTimerDuration : Bool × Nat → Bool × Nat
  | (false, _) => (true, MS1HOUR)
  | (true, d) =>
    if d = MS1HOUR then (true, MS2HOUR)
    else if d = MS2HOUR then (true, MS4HOUR)
    else if d = MS4HOUR then (true, MS6HOUR)
    else if d = MS6HOUR then (true, MS8HOUR)
    else if d = MS8HOUR then (true, MS12HOUR)
    else if d = MS12HOUR then (false, MS1HOUR)
    else (true, d)

/-! ## Persistent preferences -/

/-- The integer keys of the `settings` preferences namespace, plus the
per-slot stream records.  `getSetting` returns 0 for a key never written,
so every field simply holds the current integer value (0 when unset). -/
structure Prefs where
  curStream : Int
  prvStream : Int
  volume : Int
  timerVal : Int
  timerOn : Int
  woc : Int
  streamPrefs : List (List Nat × List Nat)

/-- WOC_GET mode selector. -/
def WOC_GET : Nat := 0

/-- WOC_SET mode selector (also the stored flag value). -/
def WOC_SET : Nat := 1

/-- `wakeOnClick(woc_mode)` (lines 1314-1332): in GET mode, return whether
the stored flag equals WOC_SET and reset it in that case; in SET mode,
store the flag and return true; anything else returns false. -/
def wakeOnClick (mode : Nat) (p : Prefs) : Bool × Prefs :=
  if mode = WOC_GET then
    if p.woc = (WOC_SET : Int) then (true, { p with woc := 0 }) else (false, p)
  else if mode = WOC_SET then (true, { p with woc := (WOC_SET : Int) })
  else (false, p)

/-- The switch in `assignTimerValsFromPrefs()` (lines 976-983), mapping the
stored `timerVal` to a duration; written out as in the source. -/
def assignTimerDurationFromVal (v : Int) : Nat :=
  if v = 1 then MS2HOUR
  else if v = 2 then MS4HOUR
  else if v = 3 then MS6HOUR
  else if v = 4 then MS8HOUR
  else if v = 5 then MS12HOUR
  else MS1HOUR

/-! ## Effects and display output -/

/-- The screens the firmware renders, one constructor per distinct oled
message; payloads record the state-dependent values shown. -/
inductive DisplayMsg where
  | clearScreen
  | wakeUp
  | errorMissingUrl
  | metaScreen
  | statusScreen (volLevel : Int)
  | menuScreen (index : Int)
  | timerHeader
  | setTimerHeader
  | timerSavedHeader
  | timerNotChanged
  | timerEnabledText (en : Bool)
  | timerDurationText (durval : Int)
  | timerDisabledLine
  | sleeping
  | savedMsg
  | portalOpenMsg
  | portalClosedMsg
  | powerDownMsg
  | startUpMsg
  deriving DecidableEq, Repr

/-- Side effects of one tick on the collaborators (audio pipeline, display,
web portal, power controller, persisted wake flag). -/
inductive Effect where
  | display (m : DisplayMsg)
  | copierCopy
  | streamBegin (url : List Nat)
  | streamEnd
  | setVolume (level : Int)
  | portalStart
  | portalStop
  | portalProcess
  | wocSet
  | armWake
  | wifiStop
  | cpuSuspend
  | disableWake
  | restart
  deriving DecidableEq, Repr

/-! ## Session state and tick input -/

/-- Portal state PORTAL_DOWN. -/
def PORTAL_DOWN : Nat := 0

/-- Portal state PORTAL_UP. -/
def PORTAL_UP : Nat := 1

/-- Portal state PORTAL_SAVE. -/
def PORTAL_SAVE : Nat := 2

/-- Portal state PORTAL_IDLE. -/
def PORTAL_IDLE : Nat := 4

/-- OLED_TIMER, display timeout in milliseconds. -/
def OLED_TIMER : Nat := 3500

/-- The mutable globals of the firmware that the main loop reads and
writes: one record per variable, same names as the source. -/
structure SysState where
  systemIsSleeping : Bool
  systemStreaming : Bool
  streamToggleOption : Bool
  toggleFlag : Bool
  streamSelectionMenuIsOpen : Bool
  menuIndex : Int
  currentIndex : Int
  volLevel : Int
  volumePos : Int
  encoderValue : Int
  timerInSetupMode : Bool
  timerIsRunning : Bool
  sleepTimerDuration : Nat
  sleepStartTime : Nat
  displayIsOn : Bool
  oledStartTime : Nat
  metaEnabled : Bool
  metaQueryTriggered : Bool
  portalMode : Nat
  firstPortal : Bool
  params : List (List Nat × List Nat)
  prefs : Prefs
  streams : Buf

/-- External observations made during one iteration of `loop()`: the
debounced button/rotation events, the level-held pins, the clock, and the
asynchronous portal-save callback with the submitted field values. -/
structure TickInput where
  now : Nat
  buttonClicked : Bool
  encoderDelta : Int
  titlePinLow : Bool
  togglePinLow : Bool
  metaPinHigh : Bool
  portalSwitch : Bool
  saveFired : Bool
  editedParams : List (List Nat × List Nat)

/-! ## The main loop, section by section -/

/-- Lines 397-421: attempt to start a stream.  Only `checkProtocol` is
consulted; the return value of `icystream.begin` is not inspected.  On a
failing protocol check, `currentIndex` reverts to the persisted index,
the menu cursor is reset to it, and an error message is rendered. -/
def startStreamStep (s : SysState) (now : Nat) : SysState × List Effect :=
  if checkProtocol s.streams s.currentIndex then
    ({ s with
        prefs := { s.prefs with curStream := s.currentIndex },
        systemStreaming := true,
        metaQueryTriggered := true,
        displayIsOn := true, oledStartTime := now },
      [Effect.streamBegin (getStreamsUrl s.streams s.currentIndex)])
  else
    ({ s with
        currentIndex := s.prefs.curStream,
        menuIndex := s.prefs.curStream,
        metaQueryTriggered := true,
        displayIsOn := true, oledStartTime := now },
      [Effect.display DisplayMsg.clearScreen,
       Effect.display DisplayMsg.errorMissingUrl])

/-- Lines 435-444: switch to the previous stream (toggle flag handling). -/
def toggleStep (s : SysState) : SysState × List Effect :=
  ({ s with
      toggleFlag := false, streamToggleOption := false,
      currentIndex := s.prefs.prvStream,
      prefs := { s.prefs with prvStream := s.currentIndex },
      systemStreaming := false },
    [Effect.streamEnd, Effect.display (DisplayMsg.statusScreen s.volLevel)])

/-- Lines 446-537: button click dispatch. -/
def clickStep (s : SysState) (now : Nat) : SysState × List Effect :=
  let res :=
    if s.volLevel = 0 then
      ({ s with
          volLevel := s.prefs.volume,
          volumePos := s.encoderValue,
          timerInSetupMode := true },
        [Effect.setVolume s.prefs.volume,
         Effect.display DisplayMsg.clearScreen,
         Effect.display DisplayMsg.timerHeader,
         Effect.display (DisplayMsg.timerEnabledText
           (if s.prefs.timerOn = 0 then false else true))]
        ++ (if s.prefs.timerOn ≠ 0 then
              [Effect.display (DisplayMsg.timerDurationText s.prefs.timerVal)]
            else []))
    else if s.timerInSetupMode then
      if s.timerIsRunning then
        ({ s with
            timerInSetupMode := false,
            sleepStartTime := now,
            prefs := { s.prefs with
              timerVal := timerDurationToValue s.sleepTimerDuration,
              timerOn := 1 },
            encoderValue := 100 - s.prefs.volume },
          [Effect.display DisplayMsg.clearScreen,
           Effect.display DisplayMsg.timerSavedHeader,
           Effect.display (DisplayMsg.timerDurationText
             (timerDurationToValue s.sleepTimerDuration))])
      else
        ({ s with
            timerInSetupMode := false,
            prefs := { s.prefs with timerOn := 0 },
            encoderValue := 100 - s.prefs.volume },
          [Effect.display DisplayMsg.clearScreen,
           Effect.display DisplayMsg.timerSavedHeader,
           Effect.display (DisplayMsg.timerEnabledText false)])
    else if s.streamSelectionMenuIsOpen then
      if s.streamToggleOption then
        ({ s with
            streamToggleOption := false,
            currentIndex := s.prefs.prvStream,
            prefs := { s.prefs with prvStream := s.currentIndex },
            encoderValue := s.volumePos,
            systemStreaming := false,
            streamSelectionMenuIsOpen := false },
          [Effect.streamEnd, Effect.display (DisplayMsg.statusScreen s.volLevel)])
      else
        ({ s with
            encoderValue := s.volumePos,
            currentIndex := s.menuIndex,
            systemStreaming := false,
            streamSelectionMenuIsOpen := false },
          [Effect.streamEnd, Effect.display (DisplayMsg.statusScreen s.volLevel)])
    else
      ({ s with
          streamToggleOption := true,
          streamSelectionMenuIsOpen := true,
          volumePos := s.encoderValue,
          encoderValue := 50 },
        [Effect.display (DisplayMsg.menuScreen s.currentIndex)])
  ({ res.1 with displayIsOn := true, oledStartTime := now }, res.2)

/-- Lines 547-553: menu cursor update on a rotation while the menu is
open.  Direction from the encoder position against the midpoint 50, then
the two sequential wrap tests of the source: `menuIndex >= TOTAL_ITEMS-1`
resets to 0, `menuIndex < 0` resets to `TOTAL_ITEMS-1`. -/
def menuScrollStep (menuIndex : Int) (encoderCurrPos : Int) : Int :=
  let m1 := if encoderCurrPos > 50 then menuIndex - 1 else menuIndex + 1
  let m2 := if m1 ≥ ((TOTAL_ITEMS : Int) - 1) then 0 else m1
  if m2 < 0 then (TOTAL_ITEMS : Int) - 1 else m2

/-- Lines 539-590: rotation dispatch. -/
def rotateStep (s0 : SysState) (now : Nat) : SysState × List Effect :=
  let s := { s0 with streamToggleOption := false }
  let res :=
    if s.streamSelectionMenuIsOpen then
      let m := menuScrollStep s.menuIndex s.encoderValue
      ({ s with menuIndex := m, encoderValue := 50 },
        [Effect.display (DisplayMsg.menuScreen m)])
    else if s.timerInSetupMode then
      let td := changeTimerDuration (s.timerIsRunning, s.sleepTimerDuration)
      ({ s with timerIsRunning := td.1, sleepTimerDuration := td.2 },
        [Effect.display DisplayMsg.clearScreen,
         Effect.display DisplayMsg.setTimerHeader]
        ++ (if td.1 = false then [Effect.display DisplayMsg.timerDisabledLine]
            else [Effect.display (DisplayMsg.timerDurationText
                    (timerDurationToValue td.2))]))
    else
      let lvl := 100 - s.encoderValue
      ({ s with volLevel := lvl, metaQueryTriggered := true },
        [Effect.setVolume lvl, Effect.display (DisplayMsg.statusScreen lvl)])
  ({ res.1 with displayIsOn := true, oledStartTime := now }, res.2)

/-- `systemPowerDown()` (lines 1287-1307): the effect sequence of the
power-down path.  After the wake edge the code resumes once past the
suspend call and immediately restarts the CPU; it never returns to the
loop. -/
def systemPowerDownEffects : List Effect :=
  [Effect.display DisplayMsg.powerDownMsg,
   Effect.streamEnd,
   Effect.wocSet,
   Effect.armWake,
   Effect.wifiStop,
   Effect.display DisplayMsg.clearScreen,
   Effect.cpuSuspend,
   Effect.display DisplayMsg.startUpMsg,
   Effect.disableWake,
   Effect.restart]

/-- Lines 601-649: the body of the expired display-timeout branch.  A
`none` result means the power-down path ran and the CPU restarted. -/
def timeoutStep (s0 : SysState) (now : Nat) : Option SysState × List Effect :=
  let effs0 := [Effect.display DisplayMsg.clearScreen]
  let s := { s0 with displayIsOn := false, streamToggleOption := false }
  if s.volLevel = 0 then (none, effs0 ++ systemPowerDownEffects)
  else
    let s :=
      if s.streamSelectionMenuIsOpen then
        { s with
            streamSelectionMenuIsOpen := false,
            menuIndex := s.currentIndex, encoderValue := s.volumePos }
      else s
    let metaRes :=
      if s.metaQueryTriggered then
        ({ s with metaQueryTriggered := false },
         if s.metaEnabled then [Effect.display DisplayMsg.metaScreen] else [])
      else (s, ([] : List Effect))
    let s := metaRes.1
    let effs2 := metaRes.2
    let effs3 :=
      if s.portalMode = PORTAL_UP then [Effect.display DisplayMsg.portalOpenMsg]
      else []
    let setupRes :=
      if s.timerInSetupMode then
        ({ s with
            timerInSetupMode := false,
            sleepTimerDuration := assignTimerDurationFromVal s.prefs.timerVal,
            timerIsRunning := decide (s.prefs.timerOn = 1),
            encoderValue := 100 - s.prefs.volume,
            displayIsOn := true, oledStartTime := now },
         [Effect.display DisplayMsg.timerNotChanged,
          Effect.display (DisplayMsg.timerEnabledText
            (if s.prefs.timerOn = 0 then false else true)),
          Effect.display (DisplayMsg.timerDurationText s.prefs.timerVal)])
      else (s, ([] : List Effect))
    let s := setupRes.1
    let effs4 := setupRes.2
    let s :=
      if s.volLevel ≠ s.prefs.volume then
        { s with prefs := { s.prefs with volume := s.volLevel } }
      else s
    (some s, effs0 ++ effs2 ++ effs3 ++ effs4)

/-- Lines 652-669: sleep-timer expiry check (caller supplies the awake and
timer-running guard). -/
def sleepTimerStep (s : SysState) (now : Nat) : SysState × List Effect :=
  if now - s.sleepStartTime > s.sleepTimerDuration then
    ({ s with
        systemStreaming := false, systemIsSleeping := true,
        displayIsOn := true, oledStartTime := now },
      [Effect.streamEnd, Effect.display DisplayMsg.clearScreen,
       Effect.display DisplayMsg.sleeping])
  else (s, [])

/-- Lines 675-754: the portal sub-machine.  `wifiMan.process()` runs while
the portal is up; the save callback may fire inside that call, setting
PORTAL_SAVE and fixing the submitted field values (each bounded to
STREAM_ELEMENT_SIZE-1 = 49 chars by the parameter objects). -/
def portalStep (s0 : SysState) (inp : TickInput) : SysState × List Effect :=
  let procRes :=
    if s0.portalMode = PORTAL_UP then
      (if inp.saveFired then
        { s0 with
            portalMode := PORTAL_SAVE,
            params := inp.editedParams.map (fun e => (e.1.take 49, e.2.take 49)) }
       else s0,
       [Effect.portalProcess])
    else (s0, ([] : List Effect))
  let s := procRes.1
  let effs0 := procRes.2
  let portalSwitch := inp.portalSwitch
  let s :=
    if s.portalMode = PORTAL_IDLE ∧ ¬portalSwitch then
      { s with portalMode := PORTAL_DOWN }
    else s
  if portalSwitch then
    if s.portalMode = PORTAL_DOWN then
      let s :=
        if s.firstPortal then
          { s with
              firstPortal := false,
              params := (List.range TOTAL_ITEMS).map
                (fun i => ((getStreamsTag s.streams i).take 49,
                           (getStreamsUrl s.streams i).take 49)) }
        else s
      ({ s with portalMode := PORTAL_UP },
        effs0 ++ [Effect.portalStart, Effect.display DisplayMsg.portalOpenMsg])
    else if s.portalMode = PORTAL_SAVE then
      let streams1 := setAllStreams s.streams s.params
      ({ s with
          streams := streams1,
          prefs := { s.prefs with streamPrefs := populatePrefs streams1 },
          portalMode := if portalSwitch then PORTAL_IDLE else PORTAL_DOWN,
          displayIsOn := true, oledStartTime := inp.now },
        effs0 ++ [Effect.portalStop, Effect.display DisplayMsg.clearScreen,
                  Effect.display DisplayMsg.savedMsg])
    else (s, effs0)
  else
    if s.portalMode ≠ PORTAL_DOWN then
      ({ s with
          portalMode := PORTAL_DOWN,
          displayIsOn := true, oledStartTime := inp.now },
        effs0 ++ [Effect.portalStop, Effect.display DisplayMsg.clearScreen,
                  Effect.display DisplayMsg.portalClosedMsg])
    else (s, effs0)

/-- Lines 393-421: pump the open stream, or attempt to start one. -/
def streamPart (s : SysState) (now : Nat) : SysState × List Effect :=
  if s.systemStreaming then (s, [Effect.copierCopy]) else startStreamStep s now

/-- Lines 423-431: TITLE_PIN demand of the meta title while blanked. -/
def titlePart (s : SysState) (inp : TickInput) : SysState × List Effect :=
  if inp.titlePinLow ∧ ¬s.displayIsOn then
    ({ s with displayIsOn := true, oledStartTime := inp.now },
      [Effect.display DisplayMsg.metaScreen])
  else (s, [])

/-- Lines 433-444: TOGGLE_PIN latch, then the previous-stream switch. -/
def togglePart (s0 : SysState) (inp : TickInput) : SysState × List Effect :=
  let s := if inp.togglePinLow then { s0 with toggleFlag := true } else s0
  if s.toggleFlag then toggleStep s else (s, [])

/-- Lines 446-537: the button-click guard. -/
def clickPart (s : SysState) (inp : TickInput) : SysState × List Effect :=
  if inp.buttonClicked then clickStep s inp.now else (s, [])

/-- Lines 539-590: the rotation guard. -/
def rotatePart (s : SysState) (inp : TickInput) : SysState × List Effect :=
  if inp.encoderDelta ≠ 0 then rotateStep s inp.now else (s, [])

/-- Lines 376-591: wake check while sleeping, or the five active sections
in source order. -/
def activeStep (s : SysState) (inp : TickInput) : SysState × List Effect :=
  if s.systemIsSleeping then
    if inp.buttonClicked ∨ inp.encoderDelta ≠ 0 then
      ({ s with
          systemIsSleeping := false, sleepStartTime := inp.now,
          displayIsOn := true, oledStartTime := inp.now },
        [Effect.display DisplayMsg.clearScreen, Effect.display DisplayMsg.wakeUp])
    else (s, [])
  else
    let r1 := streamPart s inp.now
    let r2 := titlePart r1.1 inp
    let r3 := togglePart r2.1 inp
    let r4 := clickPart r3.1 inp
    let r5 := rotatePart r4.1 inp
    (r5.1, r1.2 ++ r2.2 ++ r3.2 ++ r4.2 ++ r5.2)

/-- One iteration of `loop()` (lines 374-755).  The encoder counter has
advanced by `encoderDelta` since the previous iteration, clamped to the
configured boundaries 0..100; a `none` result means the power-down path
ran and the CPU restarted instead of returning to the loop. -/
def tick (s0 : SysState) (inp : TickInput) : Option SysState × List Effect :=
  let enc := max 0 (min 100 (s0.encoderValue + inp.encoderDelta))
  let a := activeStep { s0 with encoderValue := enc } inp
  let tRes :=
    if a.1.displayIsOn ∧ inp.now - a.1.oledStartTime > OLED_TIMER then
      timeoutStep a.1 inp.now
    else (some a.1, [])
  match tRes with
  | (none, effT) => (none, a.2 ++ effT)
  | (some sT, effT) =>
    let g :=
      if ¬sT.systemIsSleeping ∧ sT.timerIsRunning then sleepTimerStep sT inp.now
      else (sT, [])
    let iRes := portalStep { g.1 with metaEnabled := inp.metaPinHigh } inp
    (some iRes.1, a.2 ++ effT ++ g.2 ++ iRes.2)

/-- Run a sequence of loop iterations; `none` once the power-down path
has restarted the CPU. -/
def runTicks : SysState → List TickInput → Option SysState
  | s, [] => some s
  | s, i :: is =>
    match (tick s i).1 with
    | none => none
    | some t => runTicks t is

/-- The state at the first `loop()` iteration, as established by `setup()`
(lines 203-330) and the file-scope initializers (lines 337-367):
`wakeOnClick(WOC_GET)` consumes the persisted wake flag, defeating the
stream suppression, as does a low START_PIN; `currentIndex`, the volume
and the timer settings come from the preferences; `menuIndex` keeps its
static-initialization value 0.  The populated `streamsX` array is the
`streams` argument. -/
def bootState (p0 : Prefs) (startPinLow : Bool) (streams : Buf) : SysState :=
  let wocRes := wakeOnClick WOC_GET p0
  let p := wocRes.2
  { systemIsSleeping := ¬(startPinLow ∨ wocRes.1)
    systemStreaming := false
    streamToggleOption := false
    toggleFlag := false
    streamSelectionMenuIsOpen := false
    menuIndex := 0
    currentIndex := p.curStream
    volLevel := p.volume
    volumePos := 0
    encoderValue := 100 - p.volume
    timerInSetupMode := false
    timerIsRunning := decide (p.timerOn = 1)
    sleepTimerDuration := assignTimerDurationFromVal p.timerVal
    sleepStartTime := 0
    displayIsOn := true
    oledStartTime := 0
    metaEnabled := false
    metaQueryTriggered := false
    portalMode := PORTAL_DOWN
    firstPortal := true
    params := List.replicate TOTAL_ITEMS ([], [])
    prefs := p
    streams := streams }

/-- The all-zero buffer (the zero-initialized `streamsX` global). -/
def zeroBuf : Buf := fun _ => 0

/-- A C string that fits a stream element: at most 49 bytes, none NUL. -/
def goodCStr (s : List Nat) : Prop :=
  s.length ≤ 49 ∧ ∀ b ∈ s, b ≠ 0

instance (s : List Nat) : Decidable (goodCStr s) := by
  unfold goodCStr; infer_instance

/-- The consecutive bytes of a buffer from `off`, length `n`. -/
def listOf (f : Buf) (off : Int) (n : Nat) : List Nat :=
  (List.range n).map (fun (k : Nat) => f (off + (k : Int)))


/-- Buffer state after the first `n` iterations of the portal-save loop. -/
def setAllAux (f : Buf) (entries : List (List Nat × List Nat)) (n : Nat) : Buf :=
  (List.range n).foldl
    (fun b i => putStreams b i (entries.getD i ([], [])).1 (entries.getD i ([], [])).2)
    f


/-! ## Concrete fixtures for witnesses and counterexamples -/

/-- A concrete preferences record used by witness states. -/
def wPrefs : Prefs :=
  { curStream := 5, prvStream := 2, volume := 40, timerVal := 0, timerOn := 1,
    woc := 0, streamPrefs := [] }

/-- A tick input carrying no events, all option pins inactive. -/
def quietInput (now : Nat) : TickInput :=
  { now := now, buttonClicked := false, encoderDelta := 0, titlePinLow := false,
    togglePinLow := false, metaPinHigh := false, portalSwitch := false,
    saveFired := false, editedParams := [] }

/-- Concrete entry table: 36 identical one-byte tags with `http://` urls. -/
def wEntries : List (List Nat × List Nat) := List.replicate 36 ([7], httpBytes)



/-- The core mutual-exclusion invariant of the interaction state machine:
at most one of the stream-selection menu and the timer setup is active,
and an open menu implies a nonzero live volume (the menu only opens from
a nonzero-volume click and the volume cannot change while it is open). -/
def coreInv (s : SysState) : Prop :=
  (s.streamSelectionMenuIsOpen = false ∨ s.timerInSetupMode = false) ∧
  (s.streamSelectionMenuIsOpen = true → s.volLevel ≠ 0)

/-- A concrete active session state used by witnesses. -/
def wState : SysState :=
  { systemIsSleeping := false, systemStreaming := true, streamToggleOption := false,
    toggleFlag := false, streamSelectionMenuIsOpen := false, menuIndex := 5,
    currentIndex := 5, volLevel := 40, volumePos := 0, encoderValue := 60,
    timerInSetupMode := false, timerIsRunning := false, sleepTimerDuration := MS1HOUR,
    sleepStartTime := 0, displayIsOn := false, oledStartTime := 0,
    metaEnabled := false, metaQueryTriggered := false, portalMode := PORTAL_DOWN,
    firstPortal := true, params := List.replicate TOTAL_ITEMS ([], []),
    prefs := wPrefs, streams := zeroBuf }

/-- A buffer whose slot-0 url field starts with `http://`. -/
def c1Buf : Buf := writeBytes zeroBuf 50 httpBytes

/-- A state about to start the slot-0 stream, whose url passes the
protocol check, while the persisted index is still 5. -/
def c1State : SysState :=
  { wState with systemStreaming := false, currentIndex := 0, streams := c1Buf }

/-- Pending portal edits: every slot tagged with byte 9. -/
def c5Params : List (List Nat × List Nat) := List.replicate 36 ([9], [9])

/-- A state with a portal save pending and the edits of `c5Params`. -/
def c5State : SysState := { wState with portalMode := PORTAL_SAVE, params := c5Params }

/-! ## Byte-level facts about the stream store -/



theorem elemBytes_length (s : List Nat) : (elemBytes s).length = 50 := by
  simp only [elemBytes, STREAM_ELEMENT_SIZE, List.length_append, List.length_take,
    List.length_replicate]
  omega

theorem readC_eq_takeWhile (f : Buf) (off : Int) :
    readC f off = (listOf f off STREAMSX_SIZE).takeWhile (fun b => b ≠ 0) := rfl

theorem listOf_add (f : Buf) (off : Int) (m n : Nat) :
    listOf f off (m + n) = listOf f off m ++ listOf f (off + (m : Int)) n := by
  unfold listOf
  rw [List.range_add, List.map_append, List.map_map]
  congr 1
  apply List.map_congr_left
  intro k _
  simp only [Function.comp_apply]
  congr 1
  push_cast
  ring

theorem map_getD_range (l : List Nat) :
    (List.range l.length).map (fun k => l.getD k 0) = l := by
  apply List.ext_getElem
  · simp
  · intro i h1 h2
    simp only [List.getElem_map, List.getElem_range]
    exact List.getD_eq_getElem l 0 h2

theorem listOf_eq_of_bytes (f : Buf) (off : Int) (l : List Nat)
    (hb : ∀ k : Nat, k < l.length → f (off + (k : Int)) = l.getD k 0) :
    listOf f off l.length = l := by
  unfold listOf
  rw [List.map_congr_left (g := fun k => l.getD k 0), map_getD_range]
  intro k hk
  exact hb k (List.mem_range.mp hk)

theorem takeWhile_append_all {p : Nat → Bool} :
    ∀ (l₁ l₂ : List Nat), (∀ x ∈ l₁, p x = true) →
      (l₁ ++ l₂).takeWhile p = l₁ ++ l₂.takeWhile p
  | [], l₂, _ => rfl
  | a :: t, l₂, h => by
    have ha : p a = true := h a (by simp)
    simp only [List.cons_append, List.takeWhile_cons, ha, if_true]
    rw [takeWhile_append_all t l₂ (fun x hx => h x (by simp [hx]))]

/-- Reading a field whose 50 bytes are those of a fitting C string: the
NUL padding stops the scan inside the field, so the read returns the
string itself. -/
theorem readC_field (f : Buf) (off : Int) (s : List Nat)
    (hb : ∀ k : Nat, k < 50 → f (off + (k : Int)) = (elemBytes s).getD k 0)
    (hs : goodCStr s) :
    readC f off = s := by
  obtain ⟨hlen, hnz⟩ := hs
  have h50 : listOf f off 50 = elemBytes s := by
    have := listOf_eq_of_bytes f off (elemBytes s)
      (by rw [elemBytes_length]; exact hb)
    rwa [elemBytes_length] at this
  have h36 : STREAMSX_SIZE = 50 + 3550 := by norm_num [STREAMSX_SIZE]
  have helem : elemBytes s = s ++ List.replicate (50 - s.length) 0 := by
    unfold elemBytes STREAM_ELEMENT_SIZE
    rw [List.take_of_length_le (by omega)]
  have hpad : 50 - s.length = (49 - s.length) + 1 := by omega
  rw [readC_eq_takeWhile, h36, listOf_add, h50, helem, hpad, List.replicate_succ]
  rw [List.append_assoc, List.cons_append]
  rw [takeWhile_append_all s _ (fun x hx => decide_eq_true (hnz x hx))]
  simp

theorem writeBytes_apply_in (f : Buf) (off : Int) (bs : List Nat) (k : Nat)
    (hk : k < bs.length) :
    writeBytes f off bs (off + (k : Int)) = bs.getD k 0 := by
  unfold writeBytes
  rw [if_pos]
  · congr 1
    omega
  · constructor <;> omega

theorem writeBytes_apply_out (f : Buf) (off : Int) (bs : List Nat) (a : Int)
    (ha : a < off ∨ off + (bs.length : Int) ≤ a) :
    writeBytes f off bs a = f a := by
  unfold writeBytes
  rw [if_neg]
  omega

theorem putStreams_tagByte (f : Buf) (i : Nat) (t u : List Nat) (k : Nat)
    (hk : k < 50) :
    putStreams f i t u ((i : Int) * 100 + (k : Int)) = (elemBytes t).getD k 0 := by
  unfold putStreams
  rw [writeBytes_apply_out]
  · have : ((i : Int) * 100 + (k : Int))
        = ((i * STREAM_ITEM_SIZE : Nat) : Int) + (k : Int) := by
      simp only [STREAM_ITEM_SIZE]; push_cast; ring
    rw [this, writeBytes_apply_in]
    rw [elemBytes_length]
    exact hk
  · left
    simp only [STREAM_ITEM_SIZE, STREAM_ELEMENT_SIZE]
    push_cast
    omega

theorem putStreams_urlByte (f : Buf) (i : Nat) (t u : List Nat) (k : Nat)
    (hk : k < 50) :
    putStreams f i t u ((i : Int) * 100 + 50 + (k : Int)) = (elemBytes u).getD k 0 := by
  unfold putStreams
  have : ((i : Int) * 100 + 50 + (k : Int))
      = ((i * STREAM_ITEM_SIZE + STREAM_ELEMENT_SIZE : Nat) : Int) + (k : Int) := by
    simp only [STREAM_ITEM_SIZE, STREAM_ELEMENT_SIZE]; push_cast; ring
  rw [this, writeBytes_apply_in]
  rw [elemBytes_length]
  exact hk

theorem putStreams_outside (f : Buf) (i : Nat) (t u : List Nat) (a : Int)
    (ha : a < (i : Int) * 100 ∨ (i : Int) * 100 + 100 ≤ a) :
    putStreams f i t u a = f a := by
  unfold putStreams
  rw [writeBytes_apply_out, writeBytes_apply_out]
  · rw [elemBytes_length]
    simp only [STREAM_ITEM_SIZE]
    push_cast
    omega
  · rw [elemBytes_length]
    simp only [STREAM_ITEM_SIZE, STREAM_ELEMENT_SIZE]
    push_cast
    omega

theorem setAllStreams_eq_aux (f : Buf) (es : List (List Nat × List Nat)) :
    setAllStreams f es = setAllAux f es TOTAL_ITEMS := rfl

theorem setAllAux_succ (f : Buf) (es : List (List Nat × List Nat)) (n : Nat) :
    setAllAux f es (n + 1)
      = putStreams (setAllAux f es n) n (es.getD n ([], [])).1 (es.getD n ([], [])).2 := by
  unfold setAllAux
  rw [List.range_succ, List.foldl_append]
  rfl

theorem setAllAux_bytes (f : Buf) (es : List (List Nat × List Nat)) :
    ∀ n, ∀ i, i < n →
      (∀ k : Nat, k < 50 →
        setAllAux f es n ((i : Int) * 100 + (k : Int))
          = (elemBytes (es.getD i ([], [])).1).getD k 0) ∧
      (∀ k : Nat, k < 50 →
        setAllAux f es n ((i : Int) * 100 + 50 + (k : Int))
          = (elemBytes (es.getD i ([], [])).2).getD k 0) := by
  intro n
  induction n with
  | zero => intro i hi; omega
  | succ n ih =>
    intro i hi
    rw [setAllAux_succ]
    by_cases hin : i = n
    · subst hin
      constructor
      · intro k hk; exact putStreams_tagByte _ _ _ _ k hk
      · intro k hk; exact putStreams_urlByte _ _ _ _ k hk
    · have hlt : i < n := by omega
      constructor
      · intro k hk
        rw [putStreams_outside]
        · exact (ih i hlt).1 k hk
        · left; omega
      · intro k hk
        rw [putStreams_outside]
        · exact (ih i hlt).2 k hk
        · left; omega

/-- Round trip of the portal-save bulk update for fitting strings: after
the loop writes all 36 entries, reading slot `i` back returns exactly the
strings written there. -/
theorem getStreams_setAllStreams (f : Buf) (es : List (List Nat × List Nat))
    (hlen : es.length = 36)
    (hgood : ∀ e ∈ es, goodCStr e.1 ∧ goodCStr e.2)
    (i : Nat) (hi : i < 36) :
    getStreamsTag (setAllStreams f es) (i : Int) = (es.getD i ([], [])).1 ∧
    getStreamsUrl (setAllStreams f es) (i : Int) = (es.getD i ([], [])).2 := by
  have hmem : es.getD i ([], []) ∈ es := by
    rw [List.getD_eq_getElem es ([], []) (by omega)]
    exact List.getElem_mem _
  have hg := hgood _ hmem
  have hbytes := setAllAux_bytes f es TOTAL_ITEMS i (by simpa [TOTAL_ITEMS] using hi)
  rw [setAllStreams_eq_aux]
  constructor
  · have hoff : (i : Int) * ((STREAM_ITEM_SIZE : Nat) : Int) = (i : Int) * 100 := by
      norm_num [STREAM_ITEM_SIZE]
    unfold getStreamsTag
    rw [hoff]
    exact readC_field _ _ _ hbytes.1 hg.1
  · have hoff : (i : Int) * ((STREAM_ITEM_SIZE : Nat) : Int)
        + ((STREAM_ELEMENT_SIZE : Nat) : Int) = (i : Int) * 100 + 50 := by
      norm_num [STREAM_ITEM_SIZE, STREAM_ELEMENT_SIZE]
    unfold getStreamsUrl
    rw [hoff]
    exact readC_field _ _ _ hbytes.2 hg.2

/-! ## Claim C2 -/

/-- C2: with the menu open, the cursor is claimed to move by exactly one
step and wrap modulo N = 36 in both directions with no index skipped.
The two end-to-end wrap sentences hold (0 backward gives 35, 35 forward
gives 0), but the source wraps at `TOTAL_ITEMS-1`, so one forward step
from cursor 34 lands on 0 instead of 35 = (34+1) mod 36: index 35 is
skipped by the forward wraparound. -/
theorem C2_menu_wrap_off_by_one :
    menuScrollStep 0 51 = (TOTAL_ITEMS : Int) - 1 ∧
    menuScrollStep ((TOTAL_ITEMS : Int) - 1) 49 = 0 ∧
    menuScrollStep 34 49 = 0 ∧
    (34 + 1) % (TOTAL_ITEMS : Int) = 35 := by
  decide

/-! ## Claim C4 -/

/-- C4 counterexample: writing a 50-byte tag (50 ones) with url byte
list `[2]` into slot 0 of the zero buffer.  `strncpy` stores the 50-byte
truncation with no NUL terminator, so the tag read back runs into the
url field: it equals the 50 ones followed by the url byte, not the
truncated value that was written. -/
theorem C4_counterexample :
    getStreamsTag (putStreams zeroBuf 0 (List.replicate 50 1) [2]) 0
      = List.replicate 50 1 ++ [2] ∧
    getStreamsTag (putStreams zeroBuf 0 (List.replicate 50 1) [2]) 0
      ≠ List.replicate 50 1 := by
  set_option maxRecDepth 1000000 in decide

/-- C4 (amended): after the portal-save bulk update writes all 36
entries, slot `i` reads back exactly the entry written whenever each
string has at most 49 bytes, none of them NUL.  (Each field is always
exactly the 50-byte `strncpy` truncation of its source, but a string of
50 or more bytes gets no terminator, so its read-back continues into the
following field as in the counterexample.) -/
theorem C4_bulk_update_roundtrip (f : Buf) (es : List (List Nat × List Nat))
    (hlen : es.length = 36)
    (hgood : ∀ e ∈ es, goodCStr e.1 ∧ goodCStr e.2)
    (i : Nat) (hi : i < 36) :
    getStreamsTag (setAllStreams f es) (i : Int) = (es.getD i ([], [])).1 ∧
    getStreamsUrl (setAllStreams f es) (i : Int) = (es.getD i ([], [])).2 :=
  getStreams_setAllStreams f es hlen hgood i hi

/-- C4 witness: the round-trip theorem applied to a concrete table. -/
theorem C4_witness :
    getStreamsTag (setAllStreams zeroBuf wEntries) (3 : Int) = [7] ∧
    getStreamsUrl (setAllStreams zeroBuf wEntries) (3 : Int) = httpBytes :=
  C4_bulk_update_roundtrip zeroBuf wEntries (by decide) (by decide) 3 (by decide)

/-! ## Claim C9 -/

/-- C9: the timer conversion functions are mutually inverse on the
intended ranges: stored values 0..5 round-trip through
`timerValueToDuration`, the six fixed durations round-trip through
`timerDurationToValue`, and every input outside these ranges maps to the
1-hour duration or the value-0 default. -/
theorem C9_timer_conversions_inverse :
    (∀ v : Int, 0 ≤ v → v ≤ 5 →
      timerDurationToValue (timerValueToDuration v) = v) ∧
    (∀ d : Nat, d ∈ [MS1HOUR, MS2HOUR, MS4HOUR, MS6HOUR, MS8HOUR, MS12HOUR] →
      timerValueToDuration (timerDurationToValue d) = d) ∧
    (∀ v : Int, v < 0 ∨ 5 < v → timerValueToDuration v = MS1HOUR) ∧
    (∀ d : Nat, d ∉ [MS1HOUR, MS2HOUR, MS4HOUR, MS6HOUR, MS8HOUR, MS12HOUR] →
      timerDurationToValue d = 0) := by
  refine ⟨?_, ?_, ?_, ?_⟩
  · intro v h1 h2
    interval_cases v <;> decide
  · intro d hd
    fin_cases hd <;> decide
  · intro v hv
    simp only [timerValueToDuration, MS1HOUR, MS2HOUR, MS4HOUR, MS6HOUR,
      MS8HOUR, MS12HOUR]
    split_ifs <;> omega
  · intro d hd
    simp only [List.mem_cons, List.not_mem_nil, or_false, not_or, MS1HOUR,
      MS2HOUR, MS4HOUR, MS6HOUR, MS8HOUR, MS12HOUR] at hd
    simp only [timerDurationToValue, MS1HOUR, MS2HOUR, MS4HOUR, MS6HOUR,
      MS8HOUR, MS12HOUR]
    split_ifs <;> omega

/-- C9 witness: the four parts at concrete inputs. -/
theorem C9_timer_conversions_inverse_witness :
    timerDurationToValue (timerValueToDuration 4) = 4 ∧
    timerValueToDuration (timerDurationToValue MS8HOUR) = MS8HOUR ∧
    timerValueToDuration (-3) = MS1HOUR ∧
    timerDurationToValue 1234 = 0 :=
  ⟨C9_timer_conversions_inverse.1 4 (by decide) (by decide),
   C9_timer_conversions_inverse.2.1 MS8HOUR (by decide),
   C9_timer_conversions_inverse.2.2.1 (-3) (by decide),
   C9_timer_conversions_inverse.2.2.2 1234 (by decide)⟩

/-! ## Claim C10 -/

/-- C10: the persisted wake-on-click flag is read-once.  A GET returns
true exactly when the stored flag equals WOC_SET and resets it in that
case, so a second consecutive GET always returns false; a SET stores the
flag and returns true; hence SET followed by one consuming GET leaves a
flag on which a further GET returns false (at most one
stream-suppression-free wake per power-down). -/
theorem C10_wakeOnClick_read_once (p : Prefs) :
    ((wakeOnClick WOC_GET p).1 = true ↔ p.woc = 1) ∧
    (wakeOnClick WOC_GET p).2.woc = (if p.woc = 1 then 0 else p.woc) ∧
    (wakeOnClick WOC_GET (wakeOnClick WOC_GET p).2).1 = false ∧
    (wakeOnClick WOC_SET p).1 = true ∧
    (wakeOnClick WOC_SET p).2.woc = 1 ∧
    (wakeOnClick WOC_GET (wakeOnClick WOC_GET (wakeOnClick WOC_SET p).2).2).1
      = false := by
  by_cases h : p.woc = 1 <;>
    simp [wakeOnClick, WOC_GET, WOC_SET, h]

/-! ## Preservation facts about the portal sub-machine -/

theorem portalStep_core_fields (s : SysState) (inp : TickInput) :
    (portalStep s inp).1.timerIsRunning = s.timerIsRunning ∧
    (portalStep s inp).1.sleepTimerDuration = s.sleepTimerDuration ∧
    (portalStep s inp).1.timerInSetupMode = s.timerInSetupMode ∧
    (portalStep s inp).1.streamSelectionMenuIsOpen = s.streamSelectionMenuIsOpen ∧
    (portalStep s inp).1.volLevel = s.volLevel ∧
    (portalStep s inp).1.systemIsSleeping = s.systemIsSleeping ∧
    (portalStep s inp).1.prefs.volume = s.prefs.volume := by
  by_cases h1 : s.portalMode = PORTAL_UP <;>
  by_cases h2 : inp.saveFired = true <;>
  by_cases h3 : inp.portalSwitch = true <;>
  simp [portalStep, h1, h2, h3, PORTAL_UP, PORTAL_SAVE, PORTAL_IDLE, PORTAL_DOWN] <;>
  split_ifs <;> simp

theorem portalStep_timerIsRunning (s : SysState) (inp : TickInput) :
    (portalStep s inp).1.timerIsRunning = s.timerIsRunning :=
  (portalStep_core_fields s inp).1

theorem portalStep_sleepTimerDuration (s : SysState) (inp : TickInput) :
    (portalStep s inp).1.sleepTimerDuration = s.sleepTimerDuration :=
  (portalStep_core_fields s inp).2.1

theorem portalStep_timerInSetupMode (s : SysState) (inp : TickInput) :
    (portalStep s inp).1.timerInSetupMode = s.timerInSetupMode :=
  (portalStep_core_fields s inp).2.2.1

theorem portalStep_volLevel (s : SysState) (inp : TickInput) :
    (portalStep s inp).1.volLevel = s.volLevel :=
  (portalStep_core_fields s inp).2.2.2.2.1

/-! ## Preservation of the menu and timer-setup exclusion invariant -/

theorem coreInv_of_eq3 (s t : SysState)
    (h1 : t.streamSelectionMenuIsOpen = s.streamSelectionMenuIsOpen)
    (h2 : t.timerInSetupMode = s.timerInSetupMode)
    (h3 : t.volLevel = s.volLevel) (h : coreInv s) : coreInv t := by
  unfold coreInv at h ⊢
  rw [h1, h2, h3]
  exact h

theorem streamPart_inv (s : SysState) (now : Nat) (h : coreInv s) :
    coreInv (streamPart s now).1 := by
  unfold streamPart startStreamStep
  split_ifs <;> exact coreInv_of_eq3 s _ rfl rfl rfl h

theorem titlePart_inv (s : SysState) (inp : TickInput) (h : coreInv s) :
    coreInv (titlePart s inp).1 := by
  unfold titlePart
  split_ifs <;> exact coreInv_of_eq3 s _ rfl rfl rfl h

theorem toggleStep_inv (s : SysState) (h : coreInv s) : coreInv (toggleStep s).1 :=
  coreInv_of_eq3 s _ rfl rfl rfl h

theorem togglePart_inv (s : SysState) (inp : TickInput) (h : coreInv s) :
    coreInv (togglePart s inp).1 := by
  unfold togglePart
  by_cases hp : inp.togglePinLow = true <;>
    simp only [hp, if_true, if_false, ite_true, ite_false, Bool.false_eq_true] <;>
    (try split_ifs) <;>
    exact h

theorem clickStep_inv (s : SysState) (now : Nat) (h : coreInv s) :
    coreInv (clickStep s now).1 := by
  unfold coreInv clickStep at *
  split_ifs <;> simp_all

theorem rotateStep_inv (s : SysState) (now : Nat) (h : coreInv s) :
    coreInv (rotateStep s now).1 := by
  unfold coreInv rotateStep at *
  dsimp only
  split_ifs <;> simp_all

theorem clickPart_inv (s : SysState) (inp : TickInput) (h : coreInv s) :
    coreInv (clickPart s inp).1 := by
  unfold clickPart
  split_ifs
  exacts [clickStep_inv s inp.now h, h]

theorem rotatePart_inv (s : SysState) (inp : TickInput) (h : coreInv s) :
    coreInv (rotatePart s inp).1 := by
  unfold rotatePart
  split_ifs
  exacts [rotateStep_inv s inp.now h, h]

theorem activeStep_inv (s : SysState) (inp : TickInput) (h : coreInv s) :
    coreInv (activeStep s inp).1 := by
  unfold activeStep
  split_ifs with h1 h2
  · exact coreInv_of_eq3 s _ rfl rfl rfl h
  · exact h
  · exact rotatePart_inv _ _ (clickPart_inv _ _ (togglePart_inv _ _
      (titlePart_inv _ _ (streamPart_inv _ _ h))))

set_option maxHeartbeats 2000000 in
theorem timeoutStep_inv (s : SysState) (now : Nat) (t : SysState)
    (h : (timeoutStep s now).1 = some t) : coreInv t := by
  unfold timeoutStep at h
  dsimp only at h
  split_ifs at h <;>
    first
      | exact Option.noConfusion h
      | (rw [Option.some_inj] at h; subst h; unfold coreInv
         simp_all [apply_ite SysState.streamSelectionMenuIsOpen,
           apply_ite SysState.timerInSetupMode, apply_ite SysState.volLevel])

theorem sleepTimerStep_inv (s : SysState) (now : Nat) (h : coreInv s) :
    coreInv (sleepTimerStep s now).1 := by
  unfold sleepTimerStep
  split_ifs <;> exact coreInv_of_eq3 s _ rfl rfl rfl h

theorem portalStep_inv (s : SysState) (inp : TickInput) (h : coreInv s) :
    coreInv (portalStep s inp).1 :=
  coreInv_of_eq3 s _ (portalStep_core_fields s inp).2.2.2.1
    (portalStep_core_fields s inp).2.2.1 (portalStep_core_fields s inp).2.2.2.2.1 h

theorem postPhase_inv (sT : SysState) (inp : TickInput) (h : coreInv sT) :
    coreInv (portalStep
      { (if ¬sT.systemIsSleeping ∧ sT.timerIsRunning then sleepTimerStep sT inp.now
         else (sT, [])).1 with metaEnabled := inp.metaPinHigh } inp).1 := by
  apply portalStep_inv
  apply coreInv_of_eq3
    (if ¬sT.systemIsSleeping ∧ sT.timerIsRunning then sleepTimerStep sT inp.now
     else (sT, [])).1 _ rfl rfl rfl
  split_ifs with hg
  · exact sleepTimerStep_inv sT inp.now h
  · exact h

theorem tick_preserves_coreInv (s : SysState) (inp : TickInput) (t : SysState)
    (hInv : coreInv s) (h : (tick s inp).1 = some t) : coreInv t := by
  unfold tick at h
  dsimp only at h
  have hA : coreInv (activeStep
      { s with encoderValue := max 0 (min 100 (s.encoderValue + inp.encoderDelta)) } inp).1 :=
    activeStep_inv _ _ (coreInv_of_eq3 s _ rfl rfl rfl hInv)
  by_cases hg : (activeStep
      { s with encoderValue := max 0 (min 100 (s.encoderValue + inp.encoderDelta)) } inp).1.displayIsOn
      = true ∧ inp.now - (activeStep
      { s with encoderValue := max 0 (min 100 (s.encoderValue + inp.encoderDelta)) } inp).1.oledStartTime
      > OLED_TIMER
  · rw [if_pos hg] at h
    rcases hT : timeoutStep (activeStep
        { s with encoderValue := max 0 (min 100 (s.encoderValue + inp.encoderDelta)) } inp).1 inp.now
      with ⟨o, effs⟩
    rw [hT] at h
    cases o with
    | none => exact Option.noConfusion h
    | some sT =>
      rw [Option.some_inj] at h
      subst h
      exact postPhase_inv sT inp (timeoutStep_inv _ _ _ (by rw [hT]))
  · rw [if_neg hg] at h
    rw [Option.some_inj] at h
    subst h
    exact postPhase_inv _ inp hA

theorem runTicks_inv (inputs : List TickInput) :
    ∀ s t, coreInv s → runTicks s inputs = some t → coreInv t := by
  induction inputs with
  | nil =>
    intro s t h hr
    unfold runTicks at hr
    rw [Option.some_inj] at hr
    subst hr
    exact h
  | cons i is ih =>
    intro s t h hr
    unfold runTicks at hr
    cases hx : (tick s i).1 with
    | none => rw [hx] at hr; exact Option.noConfusion hr
    | some m =>
      rw [hx] at hr
      exact ih m t (tick_preserves_coreInv s i m h hx) hr

theorem bootState_inv (p : Prefs) (startPin : Bool) (streams : Buf) :
    coreInv (bootState p startPin streams) := by
  unfold coreInv bootState
  simp

/-! ## Claim C3 -/

/-- C3: starting from the boot state, after any sequence of loop
iterations (button clicks, rotations, display-timeout ticks, portal
inputs) that has not powered the system down, at most one of the
stream-selection menu and the timer setup is active. -/
theorem C3_menu_timer_mutually_exclusive (p : Prefs) (startPin : Bool) (streams : Buf)
    (inputs : List TickInput) (t : SysState)
    (h : runTicks (bootState p startPin streams) inputs = some t) :
    ¬(t.streamSelectionMenuIsOpen = true ∧ t.timerInSetupMode = true) := by
  have hInv := runTicks_inv inputs _ t (bootState_inv p startPin streams) h
  intro hcontra
  rcases hInv.1 with hm | hs
  · rw [hcontra.1] at hm; exact Bool.noConfusion hm
  · rw [hcontra.2] at hs; exact Bool.noConfusion hs

/-- C3 witness: the exclusion theorem at the concrete boot state. -/
theorem C3_witness :
    ¬((bootState wPrefs true zeroBuf).streamSelectionMenuIsOpen = true ∧
      (bootState wPrefs true zeroBuf).timerInSetupMode = true) :=
  C3_menu_timer_mutually_exclusive wPrefs true zeroBuf [] _ rfl

/-! ## Claim C6 -/

/-- C6: while timer setup is active (menu closed), a rotation event
applies `changeTimerDuration` to the pending choice, and that step
advances through the configured fixed durations in the cyclic order 1h,
2h, 4h, 6h, 8h, 12h, with the disabled step immediately after the
longest duration (never skipped) and then back to 1h enabled. -/
theorem C6_timer_setup_rotation_cycle (s : SysState) (inp : TickInput)
    (hsleep : s.systemIsSleeping = false)
    (hstream : s.systemStreaming = true)
    (hmenu : s.streamSelectionMenuIsOpen = false)
    (hsetup : s.timerInSetupMode = true)
    (htoggle : s.toggleFlag = false)
    (hclick : inp.buttonClicked = false)
    (hdelta : inp.encoderDelta ≠ 0)
    (htitle : inp.titlePinLow = false)
    (htogpin : inp.togglePinLow = false) :
    (∃ t, (tick s inp).1 = some t ∧
      (t.timerIsRunning, t.sleepTimerDuration)
        = changeTimerDuration (s.timerIsRunning, s.sleepTimerDuration)) ∧
    changeTimerDuration (true, MS1HOUR) = (true, MS2HOUR) ∧
    changeTimerDuration (true, MS2HOUR) = (true, MS4HOUR) ∧
    changeTimerDuration (true, MS4HOUR) = (true, MS6HOUR) ∧
    changeTimerDuration (true, MS6HOUR) = (true, MS8HOUR) ∧
    changeTimerDuration (true, MS8HOUR) = (true, MS12HOUR) ∧
    changeTimerDuration (true, MS12HOUR) = (false, MS1HOUR) ∧
    changeTimerDuration (false, MS1HOUR) = (true, MS1HOUR) := by
  refine ⟨?_, by decide, by decide, by decide, by decide, by decide, by decide, by decide⟩
  simp only [tick, activeStep, streamPart, titlePart, togglePart, clickPart, rotatePart,
    rotateStep, sleepTimerStep, hsleep, hstream, hmenu, hsetup, htoggle, hclick,
    hdelta, htitle, htogpin, ne_eq, not_false_eq_true, if_true, if_false,
    Bool.false_eq_true, ite_false, ite_true, and_false, false_and, and_true, true_and,
    not_true_eq_false, OLED_TIMER, Nat.sub_self, portalStep_timerIsRunning,
    portalStep_sleepTimerDuration]
  norm_num
  simp only [portalStep_timerIsRunning, portalStep_sleepTimerDuration]
  split_ifs <;> simp

/-- C6 witness: one rotation in timer setup at a concrete state. -/
theorem C6_witness :
    ∃ t, (tick { wState with timerInSetupMode := true }
            { quietInput 10 with encoderDelta := 1 }).1 = some t ∧
      (t.timerIsRunning, t.sleepTimerDuration)
        = changeTimerDuration
            ({ wState with timerInSetupMode := true }.timerIsRunning,
             { wState with timerInSetupMode := true }.sleepTimerDuration) :=
  (C6_timer_setup_rotation_cycle _ _ rfl rfl rfl rfl rfl rfl (by decide) rfl rfl).1

/-! ## Claim C7 -/

/-- C7: when the display timeout fires with volumeLevel 0, the power-down
sequence runs: the open stream is stopped, the button-edge wake source is
armed, the network radio is disabled and the CPU is suspended, in that
order; after the wake edge the trace ends in a full restart (the tick
returns no successor state: normal ticking never resumes in place). -/
theorem C7_zero_volume_timeout_powers_down (s : SysState) (inp : TickInput)
    (hsleep : s.systemIsSleeping = false)
    (hstream : s.systemStreaming = true)
    (hdisp : s.displayIsOn = true)
    (hvol : s.volLevel = 0)
    (htoggle : s.toggleFlag = false)
    (hclick : inp.buttonClicked = false)
    (hdelta : inp.encoderDelta = 0)
    (htogpin : inp.togglePinLow = false)
    (hexp : inp.now - s.oledStartTime > OLED_TIMER) :
    (tick s inp).1 = none ∧
    List.Sublist [Effect.streamEnd, Effect.armWake, Effect.wifiStop,
      Effect.cpuSuspend, Effect.restart] (tick s inp).2 ∧
    (tick s inp).2.getLast? = some Effect.restart := by
  simp only [tick, activeStep, streamPart, titlePart, togglePart, clickPart, rotatePart,
    timeoutStep, hsleep, hstream, hdisp, hvol, htoggle, hclick, hdelta, htogpin, hexp,
    ne_eq, not_false_eq_true, not_true_eq_false, if_true, if_false, Bool.false_eq_true,
    ite_false, ite_true, and_false, false_and, and_true, true_and, or_false, false_or]
  norm_num
  decide

/-- C7 witness: the power-down theorem at a concrete expired state. -/
theorem C7_witness :
    (tick { wState with volLevel := 0, displayIsOn := true } (quietInput 5000)).1 = none ∧
    List.Sublist [Effect.streamEnd, Effect.armWake, Effect.wifiStop,
      Effect.cpuSuspend, Effect.restart]
      (tick { wState with volLevel := 0, displayIsOn := true } (quietInput 5000)).2 ∧
    (tick { wState with volLevel := 0, displayIsOn := true }
        (quietInput 5000)).2.getLast? = some Effect.restart :=
  C7_zero_volume_timeout_powers_down _ _ rfl rfl rfl rfl rfl rfl rfl rfl (by decide)

/-! ## Claim C8 -/

/-- C8: in an active state with volumeLevel 0 and timer setup not already
open, a single button click makes timer setup active, restores the live
volume to the persisted (nonzero) volume value, applies it to the audio
pipeline, and renders the persisted timer enabled state plus, when the
timer is enabled, the persisted duration. -/
theorem C8_zero_volume_click_opens_timer_setup (s : SysState) (inp : TickInput)
    (hsleep : s.systemIsSleeping = false)
    (hvol : s.volLevel = 0)
    (hsetup : s.timerInSetupMode = false)
    (hpv : s.prefs.volume ≠ 0)
    (hstream : s.systemStreaming = true)
    (htoggle : s.toggleFlag = false)
    (hclick : inp.buttonClicked = true)
    (hdelta : inp.encoderDelta = 0)
    (htitle : inp.titlePinLow = false)
    (htogpin : inp.togglePinLow = false) :
    ∃ t, (tick s inp).1 = some t ∧
      t.timerInSetupMode = true ∧
      t.volLevel = s.prefs.volume ∧ t.volLevel ≠ 0 ∧
      Effect.setVolume s.prefs.volume ∈ (tick s inp).2 ∧
      Effect.display DisplayMsg.timerHeader ∈ (tick s inp).2 ∧
      Effect.display (DisplayMsg.timerEnabledText
        (if s.prefs.timerOn = 0 then false else true)) ∈ (tick s inp).2 ∧
      (s.prefs.timerOn ≠ 0 →
        Effect.display (DisplayMsg.timerDurationText s.prefs.timerVal)
          ∈ (tick s inp).2) := by
  simp only [tick, activeStep, streamPart, titlePart, togglePart, clickPart, rotatePart,
    clickStep, sleepTimerStep, hsleep, hvol, hsetup, hstream, htoggle, hclick, hdelta,
    htitle, htogpin, ne_eq, not_false_eq_true, not_true_eq_false, if_true, if_false,
    Bool.false_eq_true, ite_false, ite_true, and_false, false_and, and_true, true_and,
    or_false, false_or, Nat.sub_self, OLED_TIMER, portalStep_timerInSetupMode,
    portalStep_volLevel]
  norm_num
  simp only [portalStep_timerInSetupMode, portalStep_volLevel]
  split_ifs <;>
    simp_all [List.mem_append, List.mem_cons]

/-- C8 witness: the click at a concrete muted state with persisted
volume 40 and an enabled persisted timer. -/
theorem C8_witness :
    ∃ t, (tick { wState with volLevel := 0 }
            { quietInput 10 with buttonClicked := true }).1 = some t ∧
      t.timerInSetupMode = true ∧
      t.volLevel = { wState with volLevel := 0 }.prefs.volume ∧ t.volLevel ≠ 0 ∧
      Effect.setVolume { wState with volLevel := 0 }.prefs.volume
        ∈ (tick { wState with volLevel := 0 }
            { quietInput 10 with buttonClicked := true }).2 ∧
      Effect.display DisplayMsg.timerHeader
        ∈ (tick { wState with volLevel := 0 }
            { quietInput 10 with buttonClicked := true }).2 ∧
      Effect.display (DisplayMsg.timerEnabledText
        (if { wState with volLevel := 0 }.prefs.timerOn = 0 then false else true))
        ∈ (tick { wState with volLevel := 0 }
            { quietInput 10 with buttonClicked := true }).2 ∧
      ({ wState with volLevel := 0 }.prefs.timerOn ≠ 0 →
        Effect.display (DisplayMsg.timerDurationText
          { wState with volLevel := 0 }.prefs.timerVal)
          ∈ (tick { wState with volLevel := 0 }
              { quietInput 10 with buttonClicked := true }).2) :=
  C8_zero_volume_click_opens_timer_setup _ _ rfl rfl rfl (by decide) rfl rfl rfl rfl rfl rfl

/-! ## Claim C5 -/

/-- C5 (amended): a tick beginning with the portal in SavePending while
the activation signal is still asserted copies all 36 edited fields into
the station array, persists them in bulk, stops the web server, and
moves to Idle.  The Down alternative of the save branch is unreachable:
when the signal has been released the forced-shutdown branch runs
instead and nothing is committed (see the counterexample). -/
theorem C5_portal_save_commits_when_switch_held (s : SysState) (inp : TickInput)
    (hmode : s.portalMode = PORTAL_SAVE)
    (hswitch : inp.portalSwitch = true)
    (hsleep : s.systemIsSleeping = false)
    (hstream : s.systemStreaming = true)
    (hdisp : s.displayIsOn = false)
    (htoggle : s.toggleFlag = false)
    (htimer : s.timerIsRunning = false)
    (hclick : inp.buttonClicked = false)
    (hdelta : inp.encoderDelta = 0)
    (htitle : inp.titlePinLow = false)
    (htogpin : inp.togglePinLow = false) :
    ∃ t, (tick s inp).1 = some t ∧
      t.portalMode = PORTAL_IDLE ∧
      t.streams = setAllStreams s.streams s.params ∧
      t.prefs.streamPrefs = populatePrefs (setAllStreams s.streams s.params) ∧
      Effect.portalStop ∈ (tick s inp).2 := by
  simp only [tick, activeStep, streamPart, titlePart, togglePart, clickPart, rotatePart,
    portalStep, hmode, hswitch, hsleep, hstream, hdisp, htoggle, htimer, hclick, hdelta,
    htitle, htogpin, PORTAL_UP, PORTAL_SAVE, PORTAL_IDLE, PORTAL_DOWN, ne_eq,
    not_false_eq_true, not_true_eq_false, if_true, if_false, Bool.false_eq_true,
    ite_false, ite_true, and_false, false_and, and_true, true_and, or_false, false_or]
  norm_num

/-- C5 counterexample: SavePending with the activation signal released.
The tick forces the portal Down without committing anything: the
persisted records and the station array are untouched (slot 0 still
reads back empty) although committing the pending edits would have
written tag byte 9 there — the claim requires the save to be committed
in this case too. -/
theorem C5_counterexample :
    ((tick c5State (quietInput 10)).1.map (fun t => t.portalMode)) = some PORTAL_DOWN ∧
    ((tick c5State (quietInput 10)).1.map (fun t => t.prefs.streamPrefs))
      = some ([] : List (List Nat × List Nat)) ∧
    ((tick c5State (quietInput 10)).1.map (fun t => getStreamsTag t.streams 0))
      = some [] ∧
    getStreamsTag (setAllStreams c5State.streams c5State.params) 0 = [9] := by
  refine ⟨by decide, by decide, ?_, ?_⟩
  · set_option maxRecDepth 1000000 in decide
  · exact (getStreams_setAllStreams zeroBuf c5Params (by decide) (by decide) 0
      (by decide)).1

/-- C5 witness: the save-commit theorem at a concrete pending state. -/
theorem C5_witness :
    ∃ t, (tick { wState with portalMode := PORTAL_SAVE }
            { quietInput 10 with portalSwitch := true }).1 = some t ∧
      t.portalMode = PORTAL_IDLE ∧
      t.streams = setAllStreams { wState with portalMode := PORTAL_SAVE }.streams
          { wState with portalMode := PORTAL_SAVE }.params ∧
      t.prefs.streamPrefs = populatePrefs
          (setAllStreams { wState with portalMode := PORTAL_SAVE }.streams
            { wState with portalMode := PORTAL_SAVE }.params) ∧
      Effect.portalStop ∈ (tick { wState with portalMode := PORTAL_SAVE }
          { quietInput 10 with portalSwitch := true }).2 :=
  C5_portal_save_commits_when_switch_held _ _ rfl rfl rfl rfl rfl rfl rfl rfl rfl rfl rfl

/-! ## Claim C1 -/

/-- C1 (amended): a stream-start tick consults only the protocol check;
the return value of the pipeline begin call is never read.  When the
check fails, `currentIndex` reverts to the persisted index, the menu
cursor is reset to match and the error message is rendered; when it
passes, the system marks itself streaming and persists the index
unconditionally, with no error path for a failed connection. -/
theorem C1_stream_start_checks_protocol_only :
    (∀ (s : SysState) (inp : TickInput),
      s.systemIsSleeping = false → s.systemStreaming = false →
      s.toggleFlag = false → s.timerIsRunning = false →
      s.portalMode = PORTAL_DOWN → inp.portalSwitch = false →
      inp.buttonClicked = false → inp.encoderDelta = 0 →
      inp.togglePinLow = false →
      checkProtocol s.streams s.currentIndex = false →
      ∃ t, (tick s inp).1 = some t ∧
        t.currentIndex = s.prefs.curStream ∧
        t.menuIndex = s.prefs.curStream ∧
        t.systemStreaming = false ∧
        Effect.display DisplayMsg.errorMissingUrl ∈ (tick s inp).2) ∧
    (∀ (s : SysState) (inp : TickInput),
      s.systemIsSleeping = false → s.systemStreaming = false →
      s.toggleFlag = false → s.timerIsRunning = false →
      s.portalMode = PORTAL_DOWN → inp.portalSwitch = false →
      inp.buttonClicked = false → inp.encoderDelta = 0 →
      inp.togglePinLow = false →
      checkProtocol s.streams s.currentIndex = true →
      ∃ t, (tick s inp).1 = some t ∧
        t.systemStreaming = true ∧
        t.currentIndex = s.currentIndex ∧
        t.prefs.curStream = s.currentIndex ∧
        Effect.display DisplayMsg.errorMissingUrl ∉ (tick s inp).2) := by
  constructor <;>
  · intro s inp hsleep hstream htoggle htimer hpm hps hclick hdelta htogpin hproto
    simp only [tick, activeStep, streamPart, startStreamStep, titlePart, togglePart,
      clickPart, rotatePart, portalStep, hsleep, hstream, htoggle, htimer, hpm, hps,
      hclick, hdelta, htogpin, hproto, PORTAL_UP, PORTAL_SAVE, PORTAL_IDLE, PORTAL_DOWN,
      ne_eq, not_false_eq_true, not_true_eq_false, if_true, if_false, Bool.false_eq_true,
      ite_false, ite_true, and_false, false_and, and_true, true_and, or_false, false_or,
      Nat.sub_self, OLED_TIMER]
    norm_num
    all_goals exact fun hcontra => Effect.noConfusion hcontra

/-- C1 counterexample: a stream start whose url passes the protocol
check while the pipeline begin call fails.  Since the begin result is
never read, the tick is the same as for a successful connection: the
system marks itself streaming and keeps index 0, whereas the claim
requires a revert to the persisted index 5 and an error message — which
is not rendered. -/
theorem C1_counterexample :
    checkProtocol c1State.streams c1State.currentIndex = true ∧
    ((tick c1State (quietInput 10)).1.map (fun t => t.systemStreaming)) = some true ∧
    ((tick c1State (quietInput 10)).1.map (fun t => t.currentIndex)) = some 0 ∧
    c1State.prefs.curStream = 5 ∧
    Effect.display DisplayMsg.errorMissingUrl ∉ (tick c1State (quietInput 10)).2 := by
  set_option maxRecDepth 1000000 in decide

/-- C1 witness: the protocol-failure revert at a concrete state with
empty urls and persisted index 5. -/
theorem C1_witness :
    ∃ t, (tick { wState with systemStreaming := false } (quietInput 10)).1 = some t ∧
      t.currentIndex = { wState with systemStreaming := false }.prefs.curStream ∧
      t.menuIndex = { wState with systemStreaming := false }.prefs.curStream ∧
      t.systemStreaming = false ∧
      Effect.display DisplayMsg.errorMissingUrl
        ∈ (tick { wState with systemStreaming := false } (quietInput 10)).2 :=
  C1_stream_start_checks_protocol_only.1 _ _ rfl rfl rfl rfl rfl rfl rfl rfl rfl (by decide)
